import Mathlib

/-!
Shallow embedding of the StockFlow core: the product-intake transaction
(`src/p1_fix.py`, `create_product`) and the low-stock alert engine
(`src/api.py`, `get_low_stock_alerts`), with theorems checking the
natural-language specification against the code.
-/

/-- A JSON scalar value, as it arrives in a request payload field. -/
inductive Json where
  | jstr (s : String)
  | jint (n : Int)
  | jbool (b : Bool)
  | jnull
deriving DecidableEq, Repr

namespace Json

/-- Model of Python `str(x)` on a JSON scalar. -/
def pyStr : Json → String
  | .jstr s => s
  | .jint n => toString n
  | .jbool b => if b then "True" else "False"
  | .jnull => "None"

/-- Model of Python `repr(x)` on a JSON scalar (quotes dropped). -/
def pyRepr : Json → String
  | .jstr s => "string " ++ s
  | .jint n => toString n
  | .jbool b => if b then "True" else "False"
  | .jnull => "None"

end Json

/-- Numeric value of a digit character, `none` for non-digits. -/
def digitVal (c : Char) : Option Nat :=
  if c.isDigit then some (c.toNat - 48) else none

/-- Parse a nonempty run of decimal digits to a natural number. -/
def parseNatDigits (cs : List Char) : Option Nat :=
  match cs with
  | [] => none
  | _ =>
    cs.foldl (fun acc c =>
      match acc, digitVal c with
      | some a, some d => some (a * 10 + d)
      | _, _ => none) (some 0)

/-- Parse an unsigned decimal literal (`"12"`, `"19.99"`, `"1."`, `".5"`)
to an exact rational; `none` when not numeric. Models the accepting core
of Python's `Decimal` constructor on ordinary numeric literals. -/
def parseUnsignedDec (s : String) : Option ℚ :=
  match s.splitOn "." with
  | [w] => (parseNatDigits w.data).map (fun n => (n : ℚ))
  | [w, f] =>
    if w.data.isEmpty && f.data.isEmpty then none
    else
      let wn := if w.data.isEmpty then some 0 else parseNatDigits w.data
      let fn := if f.data.isEmpty then some 0 else parseNatDigits f.data
      match wn, fn with
      | some a, some b => some ((a : ℚ) + (b : ℚ) / ((10 : ℚ) ^ f.length))
      | _, _ => none
  | _ => none

/-- Parse a signed decimal literal to an exact rational. -/
def parseDecimal (s : String) : Option ℚ :=
  match s.data with
  | '-' :: rest => (parseUnsignedDec (String.mk rest)).map (fun q => -q)
  | '+' :: rest => parseUnsignedDec (String.mk rest)
  | _ => parseUnsignedDec s

/-- Parse a signed integer literal, the accepting core of Python `int(str)`. -/
def parseIntLit (s : String) : Option Int :=
  match s.data with
  | '-' :: rest => (parseNatDigits rest).map (fun n => -(n : Int))
  | '+' :: rest => (parseNatDigits rest).map (fun n => (n : Int))
  | cs => (parseNatDigits cs).map (fun n => (n : Int))

/-- Model of `Decimal(str(x))` from `p1_fix.py` line 35: succeeds exactly
when the value prints as a numeric literal. -/
def pyDecimal : Json → Option ℚ
  | .jint n => some (n : ℚ)
  | .jstr s => parseDecimal s
  | .jbool _ => none
  | .jnull => none

/-- Model of Python `int(x)`: integers pass through, numeric integer
strings parse, booleans coerce to 0/1, `None` and non-integer strings fail. -/
def pyToInt : Json → Option Int
  | .jint n => some n
  | .jstr s => parseIntLit s
  | .jbool b => some (if b then 1 else 0)
  | .jnull => none

namespace P1

/-- A catalog Product row as written by `create_product`. -/
structure Product where
  id : Nat
  name : Json
  sku : Json
  price : ℚ
deriving DecidableEq, Repr

/-- An Inventory row as written by `create_product` (its own surrogate id
is irrelevant to the claims and omitted). -/
structure Inventory where
  product_id : Nat
  warehouse_id : Int
  quantity : Int
deriving DecidableEq, Repr

/-- The persisted catalog store seen by the intake transaction. -/
structure Store where
  products : List Product
  inventories : List Inventory
deriving DecidableEq, Repr

/-- The JSON request body: each required field may be absent. -/
structure Payload where
  name : Option Json
  sku : Option Json
  price : Option Json
  warehouse_id : Option Json
  initial_quantity : Option Json
deriving DecidableEq, Repr

/-- Outcome of the SKU-uniqueness query (`p1_fix.py` lines 53-60): it
either answers or raises `OperationalError`. -/
inductive SkuCheckOutcome where
  | ok
  | operationalError (msg : String)
deriving DecidableEq, Repr

/-- Outcome of a database write step (flush or commit), matching the
exception taxonomy handled at `p1_fix.py` lines 89-99. -/
inductive WriteOutcome where
  | ok
  | integrityError (msg : String)
  | operationalError (msg : String)
  | otherError (msg : String)
deriving DecidableEq, Repr

/-- Injectable behavior of the external store during one invocation. -/
structure DbBehavior where
  skuCheck : SkuCheckOutcome
  flush : WriteOutcome
  commit : WriteOutcome
deriving DecidableEq, Repr

/-- An HTTP-level response: status code, message, and the optional
`product_id` field of the 201 body. -/
structure Response where
  status : Nat
  message : String
  product_id : Option String := none
deriving DecidableEq, Repr

/-- Holds the value `true` when `pat` occurs as a contiguous substring
of `s` (Python's `in` on strings). -/
def occursIn (pat : List Char) : List Char → Bool
  | [] => pat.isEmpty
  | c :: t => pat.isPrefixOf (c :: t) || occursIn pat t

/-- Holds the value `true` when `pat` occurs as a substring of `s`. -/
def containsSub (s pat : String) : Bool :=
  occursIn pat.data s.data

/-- Detail text of the exception raised by a failed `Decimal(str(x))`
conversion: CPython's `InvalidOperation` prints as the conversion-syntax
class marker (quotes dropped) and names no value — the same text for
every offending input. -/
def decimalErrDetail : String :=
  "[<class decimal.ConversionSyntax>]"

/-- Detail text of the exception raised by a failed `int(x)` conversion:
the `ValueError` for a non-numeric string names the offending value
(quotes dropped), while the `TypeError` for `None` names the offending
type, not the value. `int()` cannot fail on the other constructors, so
those cases are unreachable in `createValidated`. -/
def intErrDetail : Json → String
  | .jstr s => "invalid literal for int() with base 10: " ++ s
  | .jnull =>
    "int() argument must be a string, a bytes-like object or a real number, not NoneType"
  | j => j.pyRepr

/-- The 400 message of the `except (ValueError, TypeError)` handler
(`p1_fix.py` line 46). -/
def invalidTypeMsg (detail : String) : String :=
  "Invalid data type provided: " ++ detail ++
    ". Please ensure price is numeric, and IDs/quantities are integers."

/-- The 400 message of the catch-all input handler (`p1_fix.py` line 49);
`Decimal` failures land here because `InvalidOperation` is not a
`ValueError`. -/
def processingErrMsg (detail : String) : String :=
  "Error processing input data: " ++ detail

/-- The commit/flush `IntegrityError` handler (`p1_fix.py` lines 89-93):
409 when the message looks like a duplicate key, else 400. -/
def integrityResponse (m : String) : Response :=
  if containsSub m "Duplicate entry" || containsSub m "UNIQUE constraint failed" then
    { status := 409
      message := "Database integrity error: A duplicate entry was detected (e.g., SKU already exists or warehouse ID is invalid). Details: " ++ m }
  else
    { status := 400, message := "Database integrity error: " ++ m }

/-- Response produced by the exception handlers guarding flush/commit
(`p1_fix.py` lines 89-99); every branch performs a rollback, so the
caller keeps the unchanged store. -/
def writeFailureResponse : WriteOutcome → Response
  | .ok => { status := 201, message := "Product created successfully" }
  | .integrityError m => integrityResponse m
  | .operationalError m =>
    { status := 500, message := "Database connection or operation failed: " ++ m }
  | .otherError m =>
    { status := 500, message := "An unexpected server error occurred: " ++ m }

/-- The transactional write (`p1_fix.py` lines 64-99): stage the Product,
flush, stage the Inventory, commit. Only a fully successful commit
changes the persisted store; every exception path rolls back. -/
def doWrite (store : Store) (prod : Product) (whId quantity : Int)
    (beh : DbBehavior) : Response × Store :=
  match beh.flush with
  | .ok =>
    match beh.commit with
    | .ok =>
      ({ status := 201, message := "Product created successfully"
         product_id := some (toString prod.id) },
       { products := store.products ++ [prod]
         inventories := store.inventories ++
           [{ product_id := prod.id, warehouse_id := whId, quantity := quantity }] })
    | o => (writeFailureResponse o, store)
  | o => (writeFailureResponse o, store)

/-- Continuation of `create_product` once all five fields are present:
type coercion, the negative-quantity rule, the SKU pre-check, then the
atomic write (`p1_fix.py` lines 30-99). -/
def createValidated (store : Store) (nm sk pr wh qt : Json)
    (beh : DbBehavior) (freshId : Nat) : Response × Store :=
  match pyDecimal pr with
  | none => ({ status := 400, message := processingErrMsg decimalErrDetail }, store)
  | some price =>
    match pyToInt wh with
    | none => ({ status := 400, message := invalidTypeMsg (intErrDetail wh) }, store)
    | some warehouseId =>
      match pyToInt qt with
      | none => ({ status := 400, message := invalidTypeMsg (intErrDetail qt) }, store)
      | some quantity =>
        if quantity < 0 then
          ({ status := 400, message := "Initial quantity cannot be negative." }, store)
        else
          match beh.skuCheck with
          | .operationalError m =>
            ({ status := 500, message := "Database error during SKU uniqueness check: " ++ m }, store)
          | .ok =>
            match store.products.find? (fun p => p.sku == sk) with
            | some _ =>
              ({ status := 409
                 message := "Product with SKU " ++ sk.pyStr ++
                   " already exists. SKUs must be unique across the platform." }, store)
            | none =>
              doWrite store { id := freshId, name := nm, sku := sk, price := price }
                warehouseId quantity beh

/-- The missing-field names among the required product fields, in the
order checked at `p1_fix.py` lines 22-24. -/
def missingProductFields (d : Payload) : List String :=
  (if d.name.isSome then [] else ["name"]) ++
  (if d.sku.isSome then [] else ["sku"]) ++
  (if d.price.isSome then [] else ["price"])

/-- The missing-field names among the required inventory fields
(`p1_fix.py` lines 26-28). -/
def missingInventoryFields (d : Payload) : List String :=
  (if d.warehouse_id.isSome then [] else ["warehouse_id"]) ++
  (if d.initial_quantity.isSome then [] else ["initial_quantity"])

/-- The `create_product` handler from `p1_fix.py`: body-presence check, required
fields, coercion, business rule, SKU uniqueness, atomic write. `body`
is `none` when the request is not JSON; `freshId` is the id the store
generates at flush time; `beh` injects store outcomes. Returns the
response and the persisted store after the invocation. -/
def create_product (store : Store) (body : Option Payload)
    (beh : DbBehavior) (freshId : Nat) : Response × Store :=
  match body with
  | none => ({ status := 400, message := "Request must be JSON" }, store)
  | some data =>
    match data.name, data.sku, data.price with
    | some nm, some sk, some pr =>
      match data.warehouse_id, data.initial_quantity with
      | some wh, some qt => createValidated store nm sk pr wh qt beh freshId
      | _, _ =>
        ({ status := 400
           message := "Missing required initial inventory fields: " ++
             String.intercalate ", " (missingInventoryFields data) }, store)
    | _, _, _ =>
      ({ status := 400
         message := "Missing required product fields: " ++
           String.intercalate ", " (missingProductFields data) }, store)

/-- Invariant: every persisted Inventory quantity is non-negative. -/
def quantitiesNonneg (s : Store) : Prop :=
  ∀ i ∈ s.inventories, 0 ≤ i.quantity

/-- Invariant: Products and Inventories are pairwise linked — no Product
row without an Inventory row referencing it, and no Inventory row whose
`product_id` matches no Product. -/
def paired (s : Store) : Prop :=
  (∀ p ∈ s.products, ∃ i ∈ s.inventories, i.product_id = p.id) ∧
  (∀ i ∈ s.inventories, ∃ p ∈ s.products, i.product_id = p.id)

end P1

/-- Python `int()` truncation of an exact rational toward zero, as applied
to `inv.quantity / avg_daily_sales` in `api.py` line 59: floor for
non-negative arguments, ceiling for negative ones. -/
def pyIntTrunc (q : ℚ) : Int :=
  if 0 ≤ q then ⌊q⌋ else ⌈q⌉

namespace AE

/-- A Company row: identity only, looked up by the route parameter. -/
structure Company where
  id : String
deriving DecidableEq, Repr

/-- A Warehouse row. -/
structure Warehouse where
  id : Nat
  name : String
  company_id : String
deriving DecidableEq, Repr

/-- A ProductType row with its category-wide low-stock threshold. -/
structure ProductType where
  id : Nat
  low_stock_threshold : Int
deriving DecidableEq, Repr

/-- A Product row as read by the alert engine. -/
structure Product where
  id : Nat
  name : String
  sku : String
  type_id : Nat
  supplier_id : Option Nat
deriving DecidableEq, Repr

/-- An Inventory row as read by the alert engine. -/
structure Inventory where
  id : Nat
  product_id : Nat
  warehouse_id : Nat
  quantity : Int
deriving DecidableEq, Repr

/-- A Supplier row. -/
structure Supplier where
  id : Nat
  name : String
  contact_email : String
deriving DecidableEq, Repr

/-- An InventoryChangeLog entry; `changed_at` counts days on an absolute
axis (the `timedelta(days=30)` window becomes a 30-unit interval). -/
structure InvChange where
  inventory_id : Nat
  old_quantity : Int
  new_quantity : Int
  changed_at : Int
deriving DecidableEq, Repr

/-- The read-only catalog store snapshot consumed by the alert engine. -/
structure Db where
  companies : List Company
  warehouses : List Warehouse
  products : List Product
  productTypes : List ProductType
  inventories : List Inventory
  suppliers : List Supplier
  invChanges : List InvChange
deriving DecidableEq, Repr

/-- The supplier block of an alert. -/
structure SupplierInfo where
  id : Option String
  name : String
  contact_email : Option String
deriving DecidableEq, Repr

/-- The placeholder supplier object emitted at `api.py` line 68. -/
def placeholderSupplier : SupplierInfo :=
  { id := none, name := "No Supplier", contact_email := none }

/-- One emitted alert (`api.py` lines 79-89). -/
structure Alert where
  product_id : String
  product_name : String
  sku : String
  warehouse_id : String
  warehouse_name : String
  current_stock : Int
  threshold : Int
  days_until_stockout : Int
  supplier : SupplierInfo
deriving DecidableEq, Repr

/-- The candidate query of `api.py` lines 25-33: inventories of the
company's warehouses, joined to Product and ProductType, with quantity
strictly below the product type's threshold. Lookups use `find?`, which
matches the store's primary-key semantics. -/
def lowStockInventories (db : Db) (company_id : String) : List Inventory :=
  db.inventories.filter (fun inv =>
    match db.warehouses.find? (fun w => w.id == inv.warehouse_id) with
    | none => false
    | some w =>
      w.company_id == company_id &&
      match db.products.find? (fun p => p.id == inv.product_id) with
      | none => false
      | some p =>
        match db.productTypes.find? (fun t => t.id == p.type_id) with
        | none => false
        | some t => decide (inv.quantity < t.low_stock_threshold))

/-- The change-log entries counted as sales for an inventory item: within
the trailing 30-day window and strictly decreasing (`api.py` lines 38-42
and 49-55 filter on exactly these three conditions). -/
def saleEntries (db : Db) (now : Int) (invId : Nat) : List InvChange :=
  db.invChanges.filter (fun c =>
    c.inventory_id == invId &&
    decide (now - 30 ≤ c.changed_at) &&
    decide (c.new_quantity < c.old_quantity))

/-- The `recent_sales_count` query (`api.py` lines 38-42). -/
def recentSalesCount (db : Db) (now : Int) (invId : Nat) : Nat :=
  (saleEntries db now invId).length

/-- The `avg_daily_sales` query (`api.py` lines 49-55): the SQL `AVG` of
`|old_quantity - new_quantity|` over the sale entries, with the
`or 0.0` default when no rows match. -/
def avgDailySales (db : Db) (now : Int) (invId : Nat) : ℚ :=
  let l := saleEntries db now invId
  if l.isEmpty then 0
  else (l.map (fun c => ((c.old_quantity - c.new_quantity).natAbs : ℚ))).sum / (l.length : ℚ)

/-- The supplier resolution of `api.py` lines 67-76: start from the
placeholder; when `product.supplier_id` is truthy (present and nonzero)
and the Supplier row exists, use its fields; otherwise the placeholder
stays. -/
def supplierInfoFor (db : Db) (product : Product) : SupplierInfo :=
  match product.supplier_id with
  | some sid =>
    if sid ≠ 0 then
      match db.suppliers.find? (fun s => s.id == sid) with
      | some s => { id := some (toString s.id), name := s.name, contact_email := some s.contact_email }
      | none => placeholderSupplier
    else placeholderSupplier
  | none => placeholderSupplier

/-- The loop body of `api.py` lines 35-90 for one candidate inventory row:
skip when there is no recent sale, otherwise estimate days-until-stockout
and build the alert. `Except.error` models the uncaught `AttributeError`
raised when a `query.get` returns `None` and the code dereferences it
(`product.type_id` at line 65, `warehouse.id` at line 83,
`product_type.low_stock_threshold` at line 86, in source order). -/
def buildAlert (db : Db) (now : Int) (inv : Inventory) : Except String (Option Alert) :=
  if recentSalesCount db now inv.id == 0 then .ok none
  else
    match db.products.find? (fun p => p.id == inv.product_id) with
    | none => .error "AttributeError: NoneType object has no attribute type_id"
    | some product =>
      match db.warehouses.find? (fun w => w.id == inv.warehouse_id) with
      | none => .error "AttributeError: NoneType object has no attribute id"
      | some warehouse =>
        match db.productTypes.find? (fun t => t.id == product.type_id) with
        | none => .error "AttributeError: NoneType object has no attribute low_stock_threshold"
        | some ptype =>
          .ok (some
            { product_id := toString product.id
              product_name := product.name
              sku := product.sku
              warehouse_id := toString warehouse.id
              warehouse_name := warehouse.name
              current_stock := inv.quantity
              threshold := ptype.low_stock_threshold
              days_until_stockout :=
                if 0 < avgDailySales db now inv.id then
                  pyIntTrunc ((inv.quantity : ℚ) / avgDailySales db now inv.id)
                else 999
              supplier := supplierInfoFor db product })

/-- The `for inv in low_stock_inventories` loop: alerts accumulate in
candidate order; an exception aborts the whole request at once. -/
def processCandidates (db : Db) (now : Int) : List Inventory → Except String (List Alert)
  | [] => .ok []
  | inv :: rest =>
    match buildAlert db now inv with
    | .error e => .error e
    | .ok none => processCandidates db now rest
    | .ok (some a) =>
      match processCandidates db now rest with
      | .error e => .error e
      | .ok l => .ok (a :: l)

/-- The successful or not-found response of the endpoint. -/
inductive AlertsResp where
  | notFound (message : String)
  | success (alerts : List Alert) (total_alerts : Nat)
deriving DecidableEq, Repr

/-- The `get_low_stock_alerts` handler from `api.py`: resolve the company (404 when
absent), select the low-stock candidates, run the loop. `Except.error`
is an exception escaping the handler. -/
def get_low_stock_alerts (db : Db) (now : Int) (company_id : String) :
    Except String AlertsResp :=
  match db.companies.find? (fun c => c.id == company_id) with
  | none => .ok (.notFound "Company not found")
  | some _ =>
    match processCandidates db now (lowStockInventories db company_id) with
    | .error e => .error e
    | .ok alerts => .ok (.success alerts alerts.length)

/-- State-passing form of the endpoint: `api.py` issues only queries
(no `session.add`, `flush` or `commit`), so the handler returns the
store exactly as it received it. -/
def get_low_stock_alerts_st (db : Db) (now : Int) (company_id : String) :
    Except String AlertsResp × Db :=
  (get_low_stock_alerts db now company_id, db)

end AE

/-! Concrete sample data used to instantiate the theorems. -/

/-- A small consistent store: one product paired with one inventory row. -/
def sampleStore : P1.Store :=
  { products := [{ id := 1, name := Json.jstr "Widget", sku := Json.jstr "SKU1", price := 5 }]
    inventories := [{ product_id := 1, warehouse_id := 2, quantity := 3 }] }

/-- A well-formed creation payload with a fresh SKU. -/
def samplePayload : P1.Payload :=
  { name := some (Json.jstr "Gadget"), sku := some (Json.jstr "SKU2")
    price := some (Json.jint 7), warehouse_id := some (Json.jint 2)
    initial_quantity := some (Json.jint 4) }

/-- A payload reusing the SKU already present in `sampleStore`. -/
def dupSkuPayload : P1.Payload :=
  { samplePayload with sku := some (Json.jstr "SKU1") }

/-- A payload whose price cannot be coerced to a decimal. -/
def badPricePayload : P1.Payload :=
  { samplePayload with price := some Json.jnull }

/-- A payload whose warehouse_id is a non-numeric string, failing `int()`. -/
def badWhPayload : P1.Payload :=
  { samplePayload with warehouse_id := some (Json.jstr "abc") }

/-- A payload with a negative-or-zero price (price is never range-checked). -/
def negPricePayload : P1.Payload :=
  { samplePayload with sku := some (Json.jstr "SKU9"), price := some (Json.jint (-5)) }

/-- A payload with a negative initial quantity. -/
def negQtyPayload : P1.Payload :=
  { samplePayload with initial_quantity := some (Json.jint (-3)) }

/-- Store behavior with every operation succeeding. -/
def behOk : P1.DbBehavior := { skuCheck := .ok, flush := .ok, commit := .ok }

/-- Store behavior where the flush after the Product insert fails. -/
def behFlushFail : P1.DbBehavior :=
  { skuCheck := .ok, flush := .operationalError "connection lost", commit := .ok }

/-- Alert-engine snapshot for the worked days-until-stockout example:
quantity 10 with two sale events of 2 and 4 units in the window. -/
def c2db : AE.Db :=
  { companies := [{ id := "c1" }]
    warehouses := [{ id := 1, name := "W1", company_id := "c1" }]
    products := [{ id := 5, name := "P", sku := "S", type_id := 2, supplier_id := none }]
    productTypes := [{ id := 2, low_stock_threshold := 20 }]
    inventories := [{ id := 9, product_id := 5, warehouse_id := 1, quantity := 10 }]
    suppliers := []
    invChanges := [
      { inventory_id := 9, old_quantity := 14, new_quantity := 12, changed_at := 95 },
      { inventory_id := 9, old_quantity := 12, new_quantity := 8, changed_at := 96 }] }

/-- The single candidate inventory row of `c2db`. -/
def c2inv : AE.Inventory := { id := 9, product_id := 5, warehouse_id := 1, quantity := 10 }

/-- The alert `c2db` produces for `c2inv` at evaluation day 100. -/
def c2alert : AE.Alert :=
  { product_id := "5", product_name := "P", sku := "S", warehouse_id := "1"
    warehouse_name := "W1", current_stock := 10, threshold := 20
    days_until_stockout := 3, supplier := AE.placeholderSupplier }

/-- Snapshot with a below-threshold item that has no change-log entry at
all, hence no recent sale. -/
def c3db : AE.Db :=
  { companies := [{ id := "c1" }]
    warehouses := [{ id := 1, name := "W1", company_id := "c1" }]
    products := [{ id := 5, name := "P", sku := "S", type_id := 2, supplier_id := none }]
    productTypes := [{ id := 2, low_stock_threshold := 20 }]
    inventories := [{ id := 9, product_id := 5, warehouse_id := 1, quantity := 4 }]
    suppliers := []
    invChanges := [] }

/-- The below-threshold, zero-sales inventory row of `c3db`. -/
def c3inv : AE.Inventory := { id := 9, product_id := 5, warehouse_id := 1, quantity := 4 }

/-- Snapshot where the alerted product carries `supplier_id = 7` but no
Supplier row with id 7 exists. -/
def c4db : AE.Db :=
  { companies := [{ id := "c1" }]
    warehouses := [{ id := 1, name := "W1", company_id := "c1" }]
    products := [{ id := 5, name := "P", sku := "S", type_id := 2, supplier_id := some 7 }]
    productTypes := [{ id := 2, low_stock_threshold := 20 }]
    inventories := [{ id := 9, product_id := 5, warehouse_id := 1, quantity := 10 }]
    suppliers := []
    invChanges := [
      { inventory_id := 9, old_quantity := 14, new_quantity := 12, changed_at := 95 },
      { inventory_id := 9, old_quantity := 12, new_quantity := 8, changed_at := 96 }] }

/-- The alert `c4db` emits: supplierId present, yet placeholder supplier. -/
def c4alert : AE.Alert :=
  { product_id := "5", product_name := "P", sku := "S", warehouse_id := "1"
    warehouse_name := "W1", current_stock := 10, threshold := 20
    days_until_stockout := 3, supplier := AE.placeholderSupplier }

/-- Like `c4db` but the referenced Supplier row exists. -/
def c4wdb : AE.Db :=
  { c4db with
    products := [{ id := 5, name := "P", sku := "S", type_id := 2, supplier_id := some 3 }]
    suppliers := [{ id := 3, name := "Acme", contact_email := "acme@example.com" }] }

/-- Snapshot whose inventory row has recent sales but a dangling
`product_id`: no Product row resolves for it. -/
def c5db : AE.Db :=
  { companies := [{ id := "c1" }]
    warehouses := [{ id := 1, name := "W1", company_id := "c1" }]
    products := []
    productTypes := []
    inventories := [{ id := 9, product_id := 5, warehouse_id := 1, quantity := 10 }]
    suppliers := []
    invChanges := [
      { inventory_id := 9, old_quantity := 14, new_quantity := 12, changed_at := 95 }] }

/-- The dangling-product inventory row of `c5db`. -/
def c5inv : AE.Inventory := { id := 9, product_id := 5, warehouse_id := 1, quantity := 10 }

/-- Snapshot whose inventory quantity exactly equals its product type's
threshold. -/
def c6db : AE.Db :=
  { companies := [{ id := "c1" }]
    warehouses := [{ id := 1, name := "W1", company_id := "c1" }]
    products := [{ id := 5, name := "P", sku := "S", type_id := 2, supplier_id := none }]
    productTypes := [{ id := 2, low_stock_threshold := 20 }]
    inventories := [{ id := 9, product_id := 5, warehouse_id := 1, quantity := 20 }]
    suppliers := []
    invChanges := [
      { inventory_id := 9, old_quantity := 22, new_quantity := 20, changed_at := 95 }] }

/-- The at-threshold inventory row of `c6db`. -/
def c6inv : AE.Inventory := { id := 9, product_id := 5, warehouse_id := 1, quantity := 20 }

/-- The alert `c4wdb` emits: supplier fields resolved from the store. -/
def c4walert : AE.Alert :=
  { product_id := "5", product_name := "P", sku := "S", warehouse_id := "1"
    warehouse_name := "W1", current_stock := 10, threshold := 20
    days_until_stockout := 3
    supplier := { id := some "3", name := "Acme", contact_email := some "acme@example.com" } }

/-! Helper lemmas shared by the claim theorems. -/

/-- On non-negative rationals, Python truncation agrees with `⌊⌋`. -/
theorem pyIntTrunc_eq_floor (q : ℚ) (h : 0 ≤ q) : pyIntTrunc q = ⌊q⌋ :=
  if_pos h

/-- Every invocation of `create_product` either leaves the store unchanged
or (only when both write steps succeed) appends exactly one Product row
and its paired Inventory row, whose quantity passed the non-negativity
check. -/
theorem P1.create_product_result (store : P1.Store) (body : Option P1.Payload)
    (beh : P1.DbBehavior) (freshId : Nat) :
    (P1.create_product store body beh freshId).2 = store ∨
    (beh.flush = P1.WriteOutcome.ok ∧ beh.commit = P1.WriteOutcome.ok ∧
      ∃ nm sk price whId qty, 0 ≤ qty ∧
        (P1.create_product store body beh freshId).2 =
          { products := store.products ++ [{ id := freshId, name := nm, sku := sk, price := price }]
            inventories := store.inventories ++
              [{ product_id := freshId, warehouse_id := whId, quantity := qty }] }) := by
  unfold P1.create_product P1.createValidated P1.doWrite
  rcases body with _ | data
  · exact Or.inl rfl
  dsimp only
  repeat' split
  all_goals try exact Or.inl rfl
  exact Or.inr ⟨by assumption, by assumption, _, _, _, _, _, by omega, rfl⟩

/-! Claim theorems. -/

/-- C1: if any write step of `create_product` fails after the Product
insert (integrity violation, connectivity failure, or any other
exception), both inserts are rolled back — the persisted store is exactly
the original one — and every single invocation preserves the pairing
invariant: no Product row without its paired Inventory row and no
Inventory row without its Product. -/
theorem create_product_atomic (store : P1.Store) (body : Option P1.Payload)
    (beh : P1.DbBehavior) (freshId : Nat) :
    ((beh.flush ≠ P1.WriteOutcome.ok ∨ beh.commit ≠ P1.WriteOutcome.ok) →
      (P1.create_product store body beh freshId).2 = store) ∧
    (P1.paired store → P1.paired (P1.create_product store body beh freshId).2) := by
  constructor
  · intro h
    rcases P1.create_product_result store body beh freshId with h1 | ⟨hf, hc, _⟩
    · exact h1
    · rcases h with h | h
      · exact absurd hf h
      · exact absurd hc h
  · intro hp
    rcases P1.create_product_result store body beh freshId with
      h1 | ⟨_, _, nm, sk, price, whId, qty, _, h2⟩
    · rwa [h1]
    · rw [h2]
      obtain ⟨hpi, hip⟩ := hp
      constructor
      · intro p hmem
        rcases List.mem_append.mp hmem with hm | hm
        · obtain ⟨i, hi, hlink⟩ := hpi p hm
          exact ⟨i, List.mem_append_left _ hi, hlink⟩
        · refine ⟨{ product_id := freshId, warehouse_id := whId, quantity := qty },
            List.mem_append_right _ (List.mem_singleton.mpr rfl), ?_⟩
          rw [List.mem_singleton.mp hm]
      · intro i hmem
        rcases List.mem_append.mp hmem with hm | hm
        · obtain ⟨p, hpmem, hlink⟩ := hip i hm
          exact ⟨p, List.mem_append_left _ hpmem, hlink⟩
        · refine ⟨{ id := freshId, name := nm, sku := sk, price := price },
            List.mem_append_right _ (List.mem_singleton.mpr rfl), ?_⟩
          rw [List.mem_singleton.mp hm]

/-- Witness for C1: with a store whose flush fails after the Product
insert, the invocation leaves the concrete sample store untouched. -/
theorem create_product_atomic_witness :
    (P1.create_product sampleStore (some samplePayload) behFlushFail 2).2 = sampleStore :=
  (create_product_atomic sampleStore (some samplePayload) behFlushFail 2).1
    (Or.inl (by decide))

/-- C7: a payload whose SKU equals the SKU of a Product already in the
store is stopped by the pre-check: the call returns 409 Conflict and the
store is unchanged. -/
theorem duplicate_sku_conflict (store : P1.Store) (nm sk pr wh qt : Json)
    (beh : P1.DbBehavior) (freshId : Nat) (price : ℚ) (whId qty : Int)
    (hpr : pyDecimal pr = some price) (hwh : pyToInt wh = some whId)
    (hqt : pyToInt qt = some qty) (hneg : ¬ qty < 0)
    (hchk : beh.skuCheck = P1.SkuCheckOutcome.ok)
    (hdup : ∃ p ∈ store.products, p.sku = sk) :
    P1.create_product store (some ⟨some nm, some sk, some pr, some wh, some qt⟩) beh freshId =
      ({ status := 409
         message := "Product with SKU " ++ sk.pyStr ++
           " already exists. SKUs must be unique across the platform." }, store) := by
  obtain ⟨p, hp, hps⟩ := hdup
  have hfind : (store.products.find? (fun q => q.sku == sk)).isSome :=
    List.find?_isSome.mpr ⟨p, hp, by simp [hps]⟩
  obtain ⟨q, hq⟩ := Option.isSome_iff_exists.mp hfind
  unfold P1.create_product
  dsimp only
  unfold P1.createValidated
  simp only [hpr, hwh, hqt, hchk, hq, if_neg hneg]

/-- Witness for C7: creating with the already-present SKU1 against the
sample store yields 409 and the unchanged store. -/
theorem duplicate_sku_conflict_witness :
    P1.create_product sampleStore (some dupSkuPayload) behOk 2 =
      ({ status := 409
         message := "Product with SKU " ++ (Json.jstr "SKU1").pyStr ++
           " already exists. SKUs must be unique across the platform." }, sampleStore) :=
  duplicate_sku_conflict sampleStore (Json.jstr "Gadget") (Json.jstr "SKU1")
    (Json.jint 7) (Json.jint 2) (Json.jint 4) behOk 2 7 2 4 rfl rfl rfl
    (by decide) rfl ⟨{ id := 1, name := Json.jstr "Widget", sku := Json.jstr "SKU1", price := 5 },
      by simp [sampleStore], rfl⟩

/-- Counterexample to C8 as stated: the null-price payload fails the
`Decimal` coercion and the 400 response carries the generic
conversion-syntax detail through the catch-all handler — a message in
which the offending value (`str(None)` = "None") occurs nowhere, so the
response does not name the offending value. -/
theorem coercion_message_counterexample :
    P1.create_product sampleStore (some badPricePayload) behOk 2 =
      ({ status := 400
         message := "Error processing input data: [<class decimal.ConversionSyntax>]" },
       sampleStore) ∧
    P1.containsSub
      "Error processing input data: [<class decimal.ConversionSyntax>]" "None" = false :=
  ⟨rfl, by decide⟩

/-- C8 (amended): with all required fields present, a failed coercion of
price, warehouse_id or initial_quantity (in the source's order) returns
400 carrying the raised exception's detail text and leaves the store
unchanged; the detail names the offending value only in the
int-of-string case — a price failing `Decimal` yields the value-free
conversion-syntax marker via the generic handler, and `int(None)` names
the offending type, not the value. -/
theorem coercion_failure_badrequest (store : P1.Store) (nm sk pr wh qt : Json)
    (beh : P1.DbBehavior) (freshId : Nat) :
    (pyDecimal pr = none →
      P1.create_product store (some ⟨some nm, some sk, some pr, some wh, some qt⟩) beh freshId =
        ({ status := 400, message := P1.processingErrMsg P1.decimalErrDetail }, store)) ∧
    (∀ price, pyDecimal pr = some price → pyToInt wh = none →
      P1.create_product store (some ⟨some nm, some sk, some pr, some wh, some qt⟩) beh freshId =
        ({ status := 400, message := P1.invalidTypeMsg (P1.intErrDetail wh) }, store)) ∧
    (∀ price whId, pyDecimal pr = some price → pyToInt wh = some whId → pyToInt qt = none →
      P1.create_product store (some ⟨some nm, some sk, some pr, some wh, some qt⟩) beh freshId =
        ({ status := 400, message := P1.invalidTypeMsg (P1.intErrDetail qt) }, store)) := by
  refine ⟨fun hpr => ?_, fun price hpr hwh => ?_, fun price whId hpr hwh hqt => ?_⟩
  · unfold P1.create_product
    dsimp only
    unfold P1.createValidated
    simp only [hpr]
  · unfold P1.create_product
    dsimp only
    unfold P1.createValidated
    simp only [hpr, hwh]
  · unfold P1.create_product
    dsimp only
    unfold P1.createValidated
    simp only [hpr, hwh, hqt]

/-- Witness for amended C8: a string warehouse_id "abc" fails `int()`,
the call returns 400 with the ValueError detail — which does name the
offending value — and the sample store is unchanged. -/
theorem coercion_failure_badrequest_witness :
    P1.create_product sampleStore (some badWhPayload) behOk 2 =
      ({ status := 400, message := P1.invalidTypeMsg (P1.intErrDetail (Json.jstr "abc")) },
       sampleStore) ∧
    P1.containsSub (P1.intErrDetail (Json.jstr "abc")) "abc" = true :=
  ⟨(coercion_failure_badrequest sampleStore (Json.jstr "Gadget") (Json.jstr "SKU2")
      (Json.jint 7) (Json.jstr "abc") (Json.jint 4) behOk 2).2.1 7 rfl rfl,
   by decide⟩

/-- C9: the non-negative-quantity invariant holds across the core: every
`create_product` invocation preserves it (a negative initial_quantity is
rejected with 400 before any write), and the alert endpoint leaves the
store exactly as it received it. -/
theorem quantity_invariant_preserved :
    (∀ (store : P1.Store) (body : Option P1.Payload) (beh : P1.DbBehavior) (freshId : Nat),
      P1.quantitiesNonneg store →
      P1.quantitiesNonneg (P1.create_product store body beh freshId).2) ∧
    (∀ (store : P1.Store) (nm sk pr wh qt : Json) (beh : P1.DbBehavior) (freshId : Nat)
      (price : ℚ) (whId qty : Int),
      pyDecimal pr = some price → pyToInt wh = some whId → pyToInt qt = some qty →
      qty < 0 →
      P1.create_product store (some ⟨some nm, some sk, some pr, some wh, some qt⟩) beh freshId =
        ({ status := 400, message := "Initial quantity cannot be negative." }, store)) ∧
    (∀ (db : AE.Db) (now : Int) (cid : String),
      (AE.get_low_stock_alerts_st db now cid).2 = db) := by
  refine ⟨?_, ?_, fun _ _ _ => rfl⟩
  · intro store body beh freshId hinv
    rcases P1.create_product_result store body beh freshId with
      h1 | ⟨_, _, nm, sk, price, whId, qty, hq, h2⟩
    · rwa [h1]
    · rw [h2]
      intro i hi
      rcases List.mem_append.mp hi with hm | hm
      · exact hinv i hm
      · rw [List.mem_singleton.mp hm]
        exact hq
  · intro store nm sk pr wh qt beh freshId price whId qty hpr hwh hqt hneg
    unfold P1.create_product
    dsimp only
    unfold P1.createValidated
    simp only [hpr, hwh, hqt, if_pos hneg]

/-- Witness for C9: the sample store (all quantities non-negative) stays
within the invariant after a successful creation, and a negative
initial_quantity is rejected with 400 leaving the store unchanged. -/
theorem quantity_invariant_preserved_witness :
    P1.quantitiesNonneg (P1.create_product sampleStore (some samplePayload) behOk 2).2 ∧
    P1.create_product sampleStore (some negQtyPayload) behOk 2 =
      ({ status := 400, message := "Initial quantity cannot be negative." }, sampleStore) :=
  ⟨quantity_invariant_preserved.1 sampleStore (some samplePayload) behOk 2
     (by intro i hi; simp only [sampleStore, List.mem_singleton] at hi; subst hi; decide),
   quantity_invariant_preserved.2.1 sampleStore (Json.jstr "Gadget") (Json.jstr "SKU2")
     (Json.jint 7) (Json.jint 2) (Json.jint (-3)) behOk 2 7 2 (-3) rfl rfl rfl (by decide)⟩

/-- C10: price is never sign- or range-checked — a payload whose price
coerces to a non-positive decimal passes validation, and absent other
failures the product is persisted with that price and 201 is returned. -/
theorem negative_price_accepted (store : P1.Store) (nm sk pr wh qt : Json)
    (freshId : Nat) (price : ℚ) (whId qty : Int)
    (hpr : pyDecimal pr = some price) (_hprice : price ≤ 0)
    (hwh : pyToInt wh = some whId) (hqt : pyToInt qt = some qty) (hneg : ¬ qty < 0)
    (hfresh : store.products.find? (fun p => p.sku == sk) = none) :
    P1.create_product store (some ⟨some nm, some sk, some pr, some wh, some qt⟩) behOk freshId =
      ({ status := 201, message := "Product created successfully"
         product_id := some (toString freshId) },
       { products := store.products ++ [{ id := freshId, name := nm, sku := sk, price := price }]
         inventories := store.inventories ++
           [{ product_id := freshId, warehouse_id := whId, quantity := qty }] }) := by
  unfold P1.create_product
  dsimp only
  unfold P1.createValidated P1.doWrite
  simp only [behOk, hpr, hwh, hqt, if_neg hneg, hfresh]

/-- Witness for C10: price -5 validates and persists with 201. -/
theorem negative_price_accepted_witness :
    P1.create_product sampleStore (some negPricePayload) behOk 2 =
      ({ status := 201, message := "Product created successfully"
         product_id := some (toString 2) },
       { products := sampleStore.products ++
           [{ id := 2, name := Json.jstr "Gadget", sku := Json.jstr "SKU9", price := -5 }]
         inventories := sampleStore.inventories ++
           [{ product_id := 2, warehouse_id := 2, quantity := 4 }] }) :=
  negative_price_accepted sampleStore (Json.jstr "Gadget") (Json.jstr "SKU9")
    (Json.jint (-5)) (Json.jint 2) (Json.jint 4) 2 (-5) 2 4 rfl (by norm_num) rfl rfl
    (by decide) (by decide)

/-- Dissection of a successful `buildAlert`: the candidate had recent
sales, all three references resolved, and the alert is the record the
loop body constructs. -/
theorem AE.buildAlert_some_spec (db : AE.Db) (now : Int) (inv : AE.Inventory) (a : AE.Alert)
    (hb : AE.buildAlert db now inv = Except.ok (some a)) :
    AE.recentSalesCount db now inv.id ≠ 0 ∧
    ∃ p w t, db.products.find? (fun q => q.id == inv.product_id) = some p ∧
      db.warehouses.find? (fun w0 => w0.id == inv.warehouse_id) = some w ∧
      db.productTypes.find? (fun t0 => t0.id == p.type_id) = some t ∧
      a = { product_id := toString p.id, product_name := p.name, sku := p.sku
            warehouse_id := toString w.id, warehouse_name := w.name
            current_stock := inv.quantity, threshold := t.low_stock_threshold
            days_until_stockout :=
              if 0 < AE.avgDailySales db now inv.id then
                pyIntTrunc ((inv.quantity : ℚ) / AE.avgDailySales db now inv.id)
              else 999
            supplier := AE.supplierInfoFor db p } := by
  unfold AE.buildAlert at hb
  split at hb
  next => simp at hb
  next hcnt =>
    split at hb
    next => simp at hb
    next p hfp =>
      split at hb
      next => simp at hb
      next w hfw =>
        split at hb
        next => simp at hb
        next t hft =>
          simp only [Except.ok.injEq, Option.some.injEq] at hb
          exact ⟨by simpa using hcnt, p, w, t, hfp, hfw, hft, hb.symm⟩

/-- C2: for every retained alert candidate whose average daily units sold
is strictly positive, the emitted days-until-stockout equals
`⌊ currentQuantity / avgDailyUnitsSold ⌋` (trunation and floor agree
since the quantity is non-negative). -/
theorem daysUntilStockout_floor (db : AE.Db) (now : Int) (inv : AE.Inventory) (a : AE.Alert)
    (hq : 0 ≤ inv.quantity) (havg : 0 < AE.avgDailySales db now inv.id)
    (hb : AE.buildAlert db now inv = Except.ok (some a)) :
    a.days_until_stockout = ⌊(inv.quantity : ℚ) / AE.avgDailySales db now inv.id⌋ := by
  obtain ⟨-, p, w, t, -, -, -, ha⟩ := AE.buildAlert_some_spec db now inv a hb
  rw [ha]
  dsimp only
  rw [if_pos havg, pyIntTrunc_eq_floor]
  exact div_nonneg (by exact_mod_cast hq) havg.le

/-- Witness for C2: quantity 10 with two sale events of 2 and 4 units in
the window gives average 3 and days-until-stockout 3 = ⌊10 / 3⌋. -/
theorem daysUntilStockout_floor_witness :
    AE.buildAlert c2db 100 c2inv = Except.ok (some c2alert) ∧
    c2alert.days_until_stockout =
      ⌊(c2inv.quantity : ℚ) / AE.avgDailySales c2db 100 c2inv.id⌋ ∧
    c2alert.days_until_stockout = 3 := by
  have hb : AE.buildAlert c2db 100 c2inv = Except.ok (some c2alert) := by
    norm_num [AE.buildAlert, AE.recentSalesCount, AE.saleEntries, AE.avgDailySales,
      AE.supplierInfoFor, c2db, c2inv, c2alert, pyIntTrunc]
    exact (by decide)
  refine ⟨hb, daysUntilStockout_floor c2db 100 c2inv c2alert (by decide) ?_ hb, rfl⟩
  norm_num [AE.avgDailySales, AE.saleEntries, c2db, c2inv]

/-- C3: a below-threshold candidate with zero qualifying sales in the
window is dropped by the hard filter — its loop iteration emits nothing,
so removing it from the candidate list leaves the output unchanged. -/
theorem zeroSales_dropped (db : AE.Db) (now : Int) (cid : String) (inv : AE.Inventory)
    (pre post : List AE.Inventory)
    (_hmem : inv ∈ AE.lowStockInventories db cid)
    (hzero : AE.recentSalesCount db now inv.id = 0) :
    AE.buildAlert db now inv = Except.ok none ∧
    AE.processCandidates db now (pre ++ inv :: post) =
      AE.processCandidates db now (pre ++ post) := by
  have h1 : AE.buildAlert db now inv = Except.ok none := by
    unfold AE.buildAlert
    rw [if_pos (by simpa using hzero)]
  refine ⟨h1, ?_⟩
  induction pre with
  | nil =>
    simp only [List.nil_append]
    conv_lhs => unfold AE.processCandidates
    rw [h1]
  | cons x xs ih =>
    simp only [List.cons_append]
    unfold AE.processCandidates
    rw [ih]

/-- Witness for C3: the zero-sales below-threshold row of `c3db` is
dropped and contributes no alert. -/
theorem zeroSales_dropped_witness :
    AE.buildAlert c3db 100 c3inv = Except.ok none ∧
    AE.processCandidates c3db 100 ([] ++ c3inv :: []) =
      AE.processCandidates c3db 100 ([] ++ []) :=
  zeroSales_dropped c3db 100 "c1" c3inv [] [] (by decide) (by decide)

/-- Counterexample to C4 as stated: in `c4db` the alerted product's
`supplier_id` is present (7), yet the emitted alert carries the
placeholder supplier object, because no Supplier row with id 7 exists —
the placeholder is not reserved to the supplierId-absent case. -/
theorem supplier_placeholder_counterexample :
    AE.get_low_stock_alerts c4db 100 "c1" =
      Except.ok (AE.AlertsResp.success [c4alert] 1) ∧
    c4alert.supplier = AE.placeholderSupplier ∧
    c4db.products.find? (fun p => p.id == 5) =
      some { id := 5, name := "P", sku := "S", type_id := 2, supplier_id := some 7 } ∧
    c4db.suppliers = [] := by
  refine ⟨?_, rfl, by decide, rfl⟩
  norm_num [AE.get_low_stock_alerts, AE.processCandidates, AE.lowStockInventories,
    AE.buildAlert, AE.recentSalesCount, AE.saleEntries, AE.avgDailySales,
    AE.supplierInfoFor, c4db, c4alert, pyIntTrunc]
  exact (by decide)

/-- C4 (amended): when the product's supplierId is present, nonzero and
resolves to a Supplier row, the alert carries that supplier's id, name
and contact_email; the placeholder is emitted when supplierId is absent,
Python-falsy (0), or references no existing Supplier row. -/
theorem supplier_resolution (db : AE.Db) (now : Int) (inv : AE.Inventory)
    (p : AE.Product) (a : AE.Alert)
    (hb : AE.buildAlert db now inv = Except.ok (some a))
    (hp : db.products.find? (fun q => q.id == inv.product_id) = some p) :
    (∀ sid, p.supplier_id = some sid → sid ≠ 0 →
      (∀ s, db.suppliers.find? (fun u => u.id == sid) = some s →
        a.supplier = { id := some (toString s.id), name := s.name
                       contact_email := some s.contact_email }) ∧
      (db.suppliers.find? (fun u => u.id == sid) = none →
        a.supplier = AE.placeholderSupplier)) ∧
    ((p.supplier_id = none ∨ p.supplier_id = some 0) →
      a.supplier = AE.placeholderSupplier) := by
  obtain ⟨-, p', w, t, hp', -, -, ha⟩ := AE.buildAlert_some_spec db now inv a hb
  rw [hp] at hp'
  obtain rfl : p = p' := Option.some_inj.mp hp'
  rw [ha]
  dsimp only
  constructor
  · intro sid hsid hne
    refine ⟨fun s hs => ?_, fun hn => ?_⟩
    · simp [AE.supplierInfoFor, hsid, hne, hs]
    · simp [AE.supplierInfoFor, hsid, hne, hn]
  · intro h
    rcases h with h | h
    · simp [AE.supplierInfoFor, h]
    · simp [AE.supplierInfoFor, h]

/-- Witness for amended C4: in `c4wdb` the supplier reference resolves,
and the emitted alert carries the resolved Supplier's fields. -/
theorem supplier_resolution_witness :
    c4walert.supplier = { id := some (toString 3), name := "Acme"
                          contact_email := some "acme@example.com" } := by
  have hb : AE.buildAlert c4wdb 100 c2inv = Except.ok (some c4walert) := by
    norm_num [AE.buildAlert, AE.recentSalesCount, AE.saleEntries, AE.avgDailySales,
      AE.supplierInfoFor, c4wdb, c4db, c2inv, c4walert, pyIntTrunc]
    exact (by decide)
  exact ((supplier_resolution c4wdb 100 c2inv
      { id := 5, name := "P", sku := "S", type_id := 2, supplier_id := some 3 }
      c4walert hb (by decide)).1 3 rfl (by decide)).1
    { id := 3, name := "Acme", contact_email := "acme@example.com" } (by decide)

/-- Counterexample to C5 as stated: for the candidate row of `c5db`
(recent sales, but a dangling product reference), the loop body raises —
the computation ends in `Except.error`, not in any returned response, so
the core itself does not produce the internal-error response. -/
theorem missing_product_counterexample :
    AE.buildAlert c5db 100 c5inv =
      Except.error "AttributeError: NoneType object has no attribute type_id" ∧
    AE.processCandidates c5db 100 [c5inv] =
      Except.error "AttributeError: NoneType object has no attribute type_id" := by
  constructor <;> rfl

/-- C5 (amended): a selected row with recent sales whose Product (or,
with the Product resolved, whose Warehouse) cannot be resolved is not
silently skipped: the loop body raises an `AttributeError` that
propagates and aborts the whole request — the core returns no response
itself; the surrounding HTTP layer is what turns the exception into an
internal-error response. -/
theorem missing_reference_raises (db : AE.Db) (now : Int) (inv : AE.Inventory)
    (hsales : AE.recentSalesCount db now inv.id ≠ 0) :
    (db.products.find? (fun p => p.id == inv.product_id) = none →
      AE.buildAlert db now inv =
        Except.error "AttributeError: NoneType object has no attribute type_id") ∧
    (∀ p, db.products.find? (fun p0 => p0.id == inv.product_id) = some p →
      db.warehouses.find? (fun w => w.id == inv.warehouse_id) = none →
      AE.buildAlert db now inv =
        Except.error "AttributeError: NoneType object has no attribute id") ∧
    (∀ post, db.products.find? (fun p => p.id == inv.product_id) = none →
      AE.processCandidates db now (inv :: post) =
        Except.error "AttributeError: NoneType object has no attribute type_id") := by
  have hcond : ¬ ((AE.recentSalesCount db now inv.id == 0) = true) := by
    simpa using hsales
  have key : db.products.find? (fun p => p.id == inv.product_id) = none →
      AE.buildAlert db now inv =
        Except.error "AttributeError: NoneType object has no attribute type_id" := by
    intro hnp
    unfold AE.buildAlert
    rw [if_neg hcond]
    simp only [hnp]
  refine ⟨key, fun p hp hw => ?_, fun post hnp => ?_⟩
  · unfold AE.buildAlert
    rw [if_neg hcond]
    simp only [hp, hw]
  · conv_lhs => unfold AE.processCandidates
    rw [key hnp]

/-- Witness for amended C5: the `c5db` request aborts with the
propagating exception. -/
theorem missing_reference_raises_witness :
    AE.processCandidates c5db 100 [c5inv] =
      Except.error "AttributeError: NoneType object has no attribute type_id" :=
  (missing_reference_raises c5db 100 c5inv (by decide)).2.2 [] (by decide)

/-- C6: an inventory item whose quantity exactly equals its own product
type's threshold is not selected as a candidate, so it produces no
alert; and every selected candidate is strictly below its own product
type's threshold (not a global one). -/
theorem threshold_strict (db : AE.Db) (cid : String) :
    (∀ (inv : AE.Inventory) (p : AE.Product) (t : AE.ProductType),
      db.products.find? (fun q => q.id == inv.product_id) = some p →
      db.productTypes.find? (fun u => u.id == p.type_id) = some t →
      inv.quantity = t.low_stock_threshold →
      inv ∉ AE.lowStockInventories db cid) ∧
    (∀ inv ∈ AE.lowStockInventories db cid, ∃ p t,
      db.products.find? (fun q => q.id == inv.product_id) = some p ∧
      db.productTypes.find? (fun u => u.id == p.type_id) = some t ∧
      inv.quantity < t.low_stock_threshold) := by
  constructor
  · intro inv p t hp ht heq hmem
    obtain ⟨-, hcond⟩ := List.mem_filter.mp hmem
    rcases hw : db.warehouses.find? (fun w => w.id == inv.warehouse_id) with _ | w
    · simp only [hw] at hcond
      exact absurd hcond (by simp)
    · simp only [hw, hp, ht] at hcond
      rw [heq] at hcond
      simp at hcond
  · intro inv hmem
    obtain ⟨-, hcond⟩ := List.mem_filter.mp hmem
    rcases hw : db.warehouses.find? (fun w => w.id == inv.warehouse_id) with _ | w
    · simp only [hw] at hcond
      exact absurd hcond (by simp)
    · simp only [hw] at hcond
      rcases hpf : db.products.find? (fun q => q.id == inv.product_id) with _ | p
      · simp only [hpf] at hcond
        simp at hcond
      · simp only [hpf] at hcond
        rcases htf : db.productTypes.find? (fun u => u.id == p.type_id) with _ | t
        · simp only [htf] at hcond
          simp at hcond
        · simp only [htf] at hcond
          simp only [Bool.and_eq_true, decide_eq_true_eq] at hcond
          exact ⟨p, t, hpf, htf, hcond.2⟩

/-- Witness for C6: the at-threshold row of `c6db` (quantity 20,
threshold 20) is not a low-stock candidate. -/
theorem threshold_strict_witness :
    c6inv ∉ AE.lowStockInventories c6db "c1" :=
  (threshold_strict c6db "c1").1 c6inv
    { id := 5, name := "P", sku := "S", type_id := 2, supplier_id := none }
    { id := 2, low_stock_threshold := 20 } (by decide) (by decide) rfl
